import Mathlib

/-!
Shallow embedding of
`plugins/instruct-lab/src/fms_acceleration_ilab/framework_plugin_padding_free.py`
from the fms-acceleration repository.

The file defines `PaddingFreeAccelerationPlugin`, whose behavior is:
* `augmentation` registers a `ModelPatcher` rule replacing the flash-attention
  forward when the installed transformers version parses strictly below
  `TRANSFORMERS_VERSION = "4.44"`, and otherwise only emits a warning;
* `get_callbacks_and_ready_for_train` calls `_patch_dataloader`, which always
  replaces `accelerator.prepare` with a wrapper that, on a single `DataLoader`
  argument, checks the collate function and swaps it for a
  `DataCollatorWithFlattening`;
* at module load the plugin class is registered with the host plugin registry
  under the path `training.attention.padding_free`, and its constructor checks
  `training.attention.padding_free.method` against the allowed value
  `huggingface`.

The installed transformers version is a parameter (`tfVersion : String`) of
every function that reads it, mirroring the module-level
`transformers.__version__` read in the source.
-/

/-- Split a character list on a separator (kernel-reducible analogue of
`String.splitOn` for a one-character separator). -/
def charSplit (sep : Char) : List Char → List (List Char)
  | [] => [[]]
  | c :: cs =>
    let rest := charSplit sep cs
    if c = sep then [] :: rest
    else
      match rest with
      | [] => [[c]]
      | r :: rs => (c :: r) :: rs

/-- Read a list of decimal digits as a natural number. -/
def segToNat (cs : List Char) : Nat :=
  cs.foldl (fun acc c => acc * 10 + (c.toNat - 48)) 0

/-- `s.endswith(suffix)`: kernel-reducible suffix test on the underlying
character lists. -/
def strEndsWith (s suffix : String) : Bool :=
  List.isPrefixOf suffix.data.reverse s.data.reverse

/-- Release segments of a version string, as `packaging.version.parse` yields
for plain numeric releases: split on dots, each segment read as a natural
number. Pre/post/dev release tags are out of scope; every version appearing
in this development is a plain numeric release. -/
def parseVersion (s : String) : List Nat :=
  (charSplit '.' s.data).map segToNat

/-- Drop trailing zero segments, as `packaging` normalizes release tuples
(so that `4.44` and `4.44.0` compare equal). -/
def stripTrailingZeros (xs : List Nat) : List Nat :=
  (xs.reverse.dropWhile (fun x => x == 0)).reverse

/-- Python tuple-style strict lexicographic comparison of release segments. -/
def segmentsLt : List Nat → List Nat → Bool
  | [], [] => false
  | [], _ :: _ => true
  | _ :: _, [] => false
  | a :: ra, b :: rb =>
    if a < b then true
    else if b < a then false
    else segmentsLt ra rb

/-- `version.parse a < version.parse b` for plain numeric releases. -/
def versionLt (a b : String) : Bool :=
  segmentsLt (stripTrailingZeros (parseVersion a)) (stripTrailingZeros (parseVersion b))

/-- `TRANSFORMERS_VERSION = "4.44"`, the version where padding-free was
merged into transformers. -/
def TRANSFORMERS_VERSION : String := "4.44"

/-- `model.config`: only `model_type` is read by this plugin. -/
structure ModelConfig where
  model_type : String
deriving DecidableEq, Repr

/-- The host-owned model object passed to `augmentation`. -/
structure HFModel where
  config : ModelConfig
deriving DecidableEq, Repr

/-- The host-owned `TrainingArguments` object; the plugin never reads it. -/
structure TrainingArguments where
  output_dir : String
deriving DecidableEq, Repr

/-- A `peft.LoraConfig`; the plugin never reads it. -/
structure LoraConfig where
  r : Nat
deriving DecidableEq, Repr

/-- `modifiable_args : Tuple[LoraConfig]`, passed through unchanged. -/
structure ModifiableArgs where
  peft_config : LoraConfig
deriving DecidableEq, Repr

/-- A torch module as seen by a `ModelPatcherTrigger`: only its class name
is inspected. -/
structure TorchModule where
  className : String
deriving DecidableEq, Repr

/-- `is_flash_attn_2` from `augmentation`: true exactly when the module's
class name ends with `FlashAttention2`. -/
def is_flash_attn_2 (module : TorchModule) : Bool :=
  if strEndsWith module.className "FlashAttention2" = true then true
  else false

/-- A `ModelPatcherTrigger`: a check on a module. -/
structure ModelPatcherTrigger where
  check : TorchModule → Bool

/-- The forward builder passed to the rule:
`functools.partial(build_fa_forward, causal=True)`, kept opaque. -/
inductive ForwardBuilder
  | fa_forward (causal : Bool)
deriving DecidableEq, Repr

/-- A `ModelPatcherRule` as registered by `augmentation`. -/
structure ModelPatcherRule where
  rule_id : String
  trigger : ModelPatcherTrigger
  forward_builder : ForwardBuilder

/-- Host-global state touched by `augmentation`: the `ModelPatcher` rule
registry (registration appends a rule) and the warnings emitted so far. -/
structure HostState where
  rules : List ModelPatcherRule
  warnings : List String

/-- The warning emitted when transformers already has padding-free. -/
def padFreeWarning : String :=
  "transformers version is equal or later than 4.44, attention forward will not be replaced."

/-- The rule `augmentation` registers in the below-threshold branch:
id `f"{model_type}-pad-free"`, trigger `is_flash_attn_2`, forward builder
`build_fa_forward` with `causal=True`. -/
def padFreeRule (model : HFModel) : ModelPatcherRule :=
  { rule_id := model.config.model_type ++ "-pad-free"
    trigger := { check := is_flash_attn_2 }
    forward_builder := .fa_forward true }

/-- `PaddingFreeAccelerationPlugin.augmentation`: if the installed
transformers version parses strictly below `TRANSFORMERS_VERSION`, register
`padFreeRule model` with the `ModelPatcher`; otherwise warn. Either way
return `(model, modifiable_args)` unchanged. -/
def augmentation (tfVersion : String) (model : HFModel)
    (train_args : TrainingArguments) (modifiable_args : ModifiableArgs)
    (st : HostState) : (HFModel × ModifiableArgs) × HostState :=
  if versionLt tfVersion TRANSFORMERS_VERSION then
    ((model, modifiable_args), { st with rules := st.rules ++ [padFreeRule model] })
  else
    ((model, modifiable_args), { st with warnings := st.warnings ++ [padFreeWarning] })

/-- Which `DataCollatorWithFlattening` class `_patch_dataloader` imports:
the local `ilab_utils` one below the threshold, the transformers-native one
otherwise. -/
inductive CollatorCls
  | ilab_utils
  | transformers_native
deriving DecidableEq, Repr

/-- The class selection performed at the top of `_patch_dataloader`. -/
def collatorFor (tfVersion : String) : CollatorCls :=
  if versionLt tfVersion TRANSFORMERS_VERSION then .ilab_utils
  else .transformers_native

/-- A collate function held by a dataloader: a `DataCollatorForSeq2Seq`
instance, a freshly constructed `DataCollatorWithFlattening` (tagged with the
class it was built from), or anything else. -/
inductive CollateFn
  | seq2seq (tokenizer : Nat)
  | flattening (cls : CollatorCls)
  | other (name : String)
deriving DecidableEq, Repr

/-- `isinstance(collate_fn, DataCollatorForSeq2Seq)`. -/
def CollateFn.isSeq2Seq : CollateFn → Bool
  | .seq2seq _ => true
  | .flattening _ => false
  | .other _ => false

/-- A `torch.utils.data.DataLoader`: the fields other than `collate_fn`
stand for all the attributes the patch leaves alone. -/
structure DataLoader where
  dataset : Nat
  batch_size : Nat
  collate_fn : CollateFn
deriving DecidableEq, Repr

/-- A positional argument of `accelerator.prepare`: a `DataLoader`, or any
other host object (model, optimizer, scheduler, ...). -/
inductive PrepArg
  | dataloader (dl : DataLoader)
  | other (v : Nat)
deriving DecidableEq, Repr

/-- `isinstance(arg, DataLoader)`. -/
def PrepArg.isDataLoader : PrepArg → Bool
  | .dataloader _ => true
  | .other _ => false

/-- The `prepare` attribute of an accelerator: either the original method
(kept opaque, identified by a key), or the wrapper installed by
`_patch_dataloader`, which closes over the chosen collator class and the
previous `prepare` (`_old_prepare`). -/
inductive PrepareFn
  | original (key : Nat)
  | patched (collator : CollatorCls) (old : PrepareFn)
deriving DecidableEq, Repr

/-- Python exceptions this fragment can raise. -/
inductive PyError
  | typeError
  | attributeError
  | indexError
  | valueError
deriving DecidableEq, Repr

/-- The value returned by a `prepare` call: whatever the original opaque
method returns on its arguments, or a dataloader returned by the wrapper. -/
inductive PrepRet
  | fromOriginal (key : Nat) (args : List PrepArg) (device_placement : Option Nat)
  | dataloader (dl : DataLoader)
deriving DecidableEq, Repr

deriving instance DecidableEq for Except

/-- Outcome of a `prepare` call: the returned value (or raised exception)
together with the final state of the positional-argument objects, making the
mutation of a dataloader's `collate_fn` observable. -/
structure PrepOutcome where
  result : Except PyError PrepRet
  argsAfter : List PrepArg
deriving DecidableEq, Repr

/-- Semantics of a `prepare` attribute, mirroring the wrapper `prepare`
defined inside `_patch_dataloader`:

* `len(args) > 1 or not isinstance(args[0], DataLoader)` falls through to
  `_old_prepare(*args, device_placement=device_placement)` (on an empty
  `args`, `args[0]` raises `IndexError`);
* a single dataloader whose `collate_fn` is not a `DataCollatorForSeq2Seq`
  raises `TypeError` before touching the dataloader;
* otherwise `dataloader.collate_fn` is replaced by a freshly constructed
  `DataCollatorWithFlattening()` of the class chosen at patch time, and the
  same dataloader is returned.

The original method is opaque: it returns `PrepRet.fromOriginal` and leaves
the arguments as they are. -/
def runPrepare (fn : PrepareFn) (args : List PrepArg) (device_placement : Option Nat) :
    PrepOutcome :=
  match fn with
  | .original key => { result := .ok (.fromOriginal key args device_placement), argsAfter := args }
  | .patched collator old =>
    if 1 < args.length then runPrepare old args device_placement
    else
      match args with
      | [] => { result := .error .indexError, argsAfter := [] }
      | .other v :: rest => runPrepare old (.other v :: rest) device_placement
      | .dataloader dl :: _ =>
        if dl.collate_fn.isSeq2Seq then
          let dl2 : DataLoader := { dl with collate_fn := .flattening collator }
          { result := .ok (.dataloader dl2), argsAfter := [.dataloader dl2] }
        else
          { result := .error .typeError, argsAfter := [.dataloader dl] }

/-- The host-owned `Accelerator`: its `prepare` attribute plus a stand-in
for every other attribute, which the plugin never touches. -/
structure Accelerator where
  prepare : PrepareFn
  other_attrs : Nat
deriving DecidableEq, Repr

/-- `PaddingFreeAccelerationPlugin._patch_dataloader`: pick the collator
class by version, capture `_old_prepare = accelerator.prepare`, and bind the
wrapper as the accelerator's new `prepare`. -/
def patch_dataloader (tfVersion : String) (acc : Accelerator) : Accelerator :=
  { acc with prepare := .patched (collatorFor tfVersion) acc.prepare }

/-- A trainer callback; the plugin returns none. -/
inductive TrainerCallback
  | mk (id : Nat)
deriving DecidableEq, Repr

/-- `PaddingFreeAccelerationPlugin.get_callbacks_and_ready_for_train`:
patch the dataloader on the accelerator, return `[]`. With
`accelerator=None` (the default), `accelerator.prepare` inside
`_patch_dataloader` raises `AttributeError`. -/
def get_callbacks_and_ready_for_train (tfVersion : String)
    (model : Option HFModel) (accelerator : Option Accelerator) :
    Except PyError (List TrainerCallback × Option Accelerator) :=
  match accelerator with
  | none => .error .attributeError
  | some acc => .ok ([], some (patch_dataloader tfVersion acc))

/-- `PaddingFreeAccelerationPlugin.requires_agumentation` (sic). -/
def requires_agumentation : Bool := true

/-- A flat configuration mapping of dotted key paths to values. -/
abbrev Configurations := List (String × String)

/-- Modelled from the spec: `AccelerationPlugin._check_config_and_maybe_check_values`
belongs to the fms_acceleration framework package, which is not under `src/`;
the spec describes only "the external framework's plugin contract (a
registration call with a configuration key path)". It is modelled as: look
up the key in the configuration and accept the value only when it is among
the allowed values, failing otherwise. -/
def check_config_and_maybe_check_values (cfg : Configurations) (key : String)
    (values : List String) : Except PyError String :=
  match cfg.lookup key with
  | some v => if v ∈ values then .ok v else .error .valueError
  | none => .error .valueError

/-- The plugin instance after a successful `__init__`: it stores the
checked method in `self._method`. -/
structure PluginState where
  method : String
deriving DecidableEq, Repr

/-- `PaddingFreeAccelerationPlugin.__init__`: check
`training.attention.padding_free.method` against the allowed values
`["huggingface"]`. -/
def PaddingFreeAccelerationPlugin_init (cfg : Configurations) :
    Except PyError PluginState :=
  match check_config_and_maybe_check_values cfg
      "training.attention.padding_free.method" ["huggingface"] with
  | .ok m => .ok { method := m }
  | .error e => .error e

/-- The `configuration_and_paths` passed to `AccelerationPlugin.register_plugin`
at module load. -/
def registered_configuration_and_paths : List String :=
  ["training.attention.padding_free"]

/-- C1: `augmentation` registers a `ModelPatcher` rule — with rule id
`<model_type>-pad-free` and a trigger matching modules whose class name ends
with `FlashAttention2` — if and only if the installed transformers version
parses strictly below `4.44`; otherwise the rule registry is untouched. -/
theorem C1_register_rule_iff_version_below (tfVersion : String) (model : HFModel)
    (train_args : TrainingArguments) (modifiable_args : ModifiableArgs) (st : HostState) :
    ((augmentation tfVersion model train_args modifiable_args st).2.rules =
      if versionLt tfVersion TRANSFORMERS_VERSION then st.rules ++ [padFreeRule model]
      else st.rules) ∧
    ((augmentation tfVersion model train_args modifiable_args st).2.rules ≠ st.rules ↔
      versionLt tfVersion TRANSFORMERS_VERSION = true) ∧
    (padFreeRule model).rule_id = model.config.model_type ++ "-pad-free" ∧
    ∀ m : TorchModule,
      (padFreeRule model).trigger.check m = strEndsWith m.className "FlashAttention2" := by
  have hrules : (augmentation tfVersion model train_args modifiable_args st).2.rules =
      if versionLt tfVersion TRANSFORMERS_VERSION then st.rules ++ [padFreeRule model]
      else st.rules := by
    unfold augmentation
    split <;> rfl
  refine ⟨hrules, ?_, rfl, ?_⟩
  · rw [hrules]
    cases hv : versionLt tfVersion TRANSFORMERS_VERSION <;> simp
  · intro m
    cases h : strEndsWith m.className "FlashAttention2" <;>
      simp [padFreeRule, is_flash_attn_2, h]

/-- C2 counterexample: with transformers version `4.44.0` (not below the
threshold), the plugin still mutates a host-owned object: calling
`get_callbacks_and_ready_for_train` replaces the accelerator's `prepare`
attribute, so the claim that the plugin makes no change of state when the
version is at or above `4.44` is false. -/
theorem C2_counterexample_state_still_changes :
    versionLt "4.44.0" TRANSFORMERS_VERSION = false ∧
    get_callbacks_and_ready_for_train "4.44.0" none
        (some { prepare := .original 0, other_attrs := 0 }) =
      .ok ([], some { prepare := .patched .transformers_native (.original 0), other_attrs := 0 }) ∧
    PrepareFn.patched .transformers_native (.original 0) ≠ .original 0 := by
  refine ⟨by decide, by decide, by decide⟩

/-- C2 (amended): when the installed transformers version is at or above
`4.44`, `augmentation` itself degrades to a no-op with a warning — it
registers no patcher rule, only appends the warning, and returns the model
and modifiable args unchanged — but `get_callbacks_and_ready_for_train`
still replaces the accelerator's `prepare` attribute. -/
theorem C2_amended_augmentation_noop_with_warning (tfVersion : String) (model : HFModel)
    (train_args : TrainingArguments) (modifiable_args : ModifiableArgs)
    (st : HostState) (acc : Accelerator)
    (h : versionLt tfVersion TRANSFORMERS_VERSION = false) :
    augmentation tfVersion model train_args modifiable_args st =
      ((model, modifiable_args), { st with warnings := st.warnings ++ [padFreeWarning] }) ∧
    get_callbacks_and_ready_for_train tfVersion (some model) (some acc) =
      .ok ([], some { acc with prepare := .patched .transformers_native acc.prepare }) := by
  constructor
  · simp [augmentation, h]
  · simp [get_callbacks_and_ready_for_train, patch_dataloader, collatorFor, h]

/-- C2 witness: the amended statement at transformers version `4.44.0` with
concrete model, arguments, host state and accelerator. -/
theorem C2_amended_witness :
    augmentation "4.44.0" ⟨⟨"llama"⟩⟩ ⟨"out"⟩ ⟨⟨8⟩⟩ ⟨[], []⟩ =
      ((⟨⟨"llama"⟩⟩, ⟨⟨8⟩⟩), ⟨[], [padFreeWarning]⟩) ∧
    get_callbacks_and_ready_for_train "4.44.0" (some ⟨⟨"llama"⟩⟩) (some ⟨.original 0, 5⟩) =
      .ok ([], some ⟨.patched .transformers_native (.original 0), 5⟩) :=
  C2_amended_augmentation_noop_with_warning "4.44.0" ⟨⟨"llama"⟩⟩ ⟨"out"⟩ ⟨⟨8⟩⟩ ⟨[], []⟩
    ⟨.original 0, 5⟩ (by decide)

/-- C3: the patched `prepare`, called with exactly one `DataLoader` argument
whose `collate_fn` is not a `DataCollatorForSeq2Seq`, raises `TypeError` and
leaves the dataloader's `collate_fn` unchanged. -/
theorem C3_wrong_collator_raises_type_error (tfVersion : String) (acc : Accelerator)
    (dl : DataLoader) (device_placement : Option Nat)
    (h : dl.collate_fn.isSeq2Seq = false) :
    runPrepare (patch_dataloader tfVersion acc).prepare [.dataloader dl] device_placement =
      { result := .error .typeError, argsAfter := [.dataloader dl] } := by
  simp [patch_dataloader, runPrepare, h]

/-- C3 witness: a dataloader carrying a default (non-Seq2Seq) collator. -/
theorem C3_witness :
    runPrepare (patch_dataloader "4.43" ⟨.original 0, 0⟩).prepare
        [.dataloader ⟨1, 2, .other "default_data_collator"⟩] none =
      { result := .error .typeError
        argsAfter := [.dataloader ⟨1, 2, .other "default_data_collator"⟩] } :=
  C3_wrong_collator_raises_type_error "4.43" ⟨.original 0, 0⟩
    ⟨1, 2, .other "default_data_collator"⟩ none (by decide)

/-- C4: the patched `prepare`, called with exactly one `DataLoader` argument
whose `collate_fn` is a `DataCollatorForSeq2Seq`, replaces that `collate_fn`
with a freshly constructed `DataCollatorWithFlattening` (of the class chosen
at patch time) and returns the same dataloader object — all its other fields
intact. -/
theorem C4_collator_replaced_same_dataloader (tfVersion : String) (acc : Accelerator)
    (dl : DataLoader) (device_placement : Option Nat)
    (h : dl.collate_fn.isSeq2Seq = true) :
    runPrepare (patch_dataloader tfVersion acc).prepare [.dataloader dl] device_placement =
      { result := .ok (.dataloader { dl with collate_fn := .flattening (collatorFor tfVersion) })
        argsAfter := [.dataloader { dl with collate_fn := .flattening (collatorFor tfVersion) }] } := by
  simp [patch_dataloader, runPrepare, h]

/-- C4 witness: a dataloader carrying a `DataCollatorForSeq2Seq`, below the
threshold version, so the local flattening collator is swapped in. -/
theorem C4_witness :
    runPrepare (patch_dataloader "4.43" ⟨.original 0, 0⟩).prepare
        [.dataloader ⟨1, 2, .seq2seq 9⟩] none =
      { result := .ok (.dataloader ⟨1, 2, .flattening .ilab_utils⟩)
        argsAfter := [.dataloader ⟨1, 2, .flattening .ilab_utils⟩] } :=
  C4_collator_replaced_same_dataloader "4.43" ⟨.original 0, 0⟩ ⟨1, 2, .seq2seq 9⟩ none (by decide)

/-- C5: `augmentation` returns exactly the model object and the
modifiable-args object it was given, in every version branch. -/
theorem C5_returns_inputs_unchanged (tfVersion : String) (model : HFModel)
    (train_args : TrainingArguments) (modifiable_args : ModifiableArgs) (st : HostState) :
    (augmentation tfVersion model train_args modifiable_args st).1 = (model, modifiable_args) := by
  unfold augmentation
  split <;> rfl

/-- C6: one call to `get_callbacks_and_ready_for_train` replaces exactly the
accelerator's `prepare` attribute — wrapping the previous one once — leaves
every other accelerator attribute unchanged, and returns the empty callback
list; no other externally-owned object appears in the result. -/
theorem C6_only_prepare_mutated (tfVersion : String) (model : Option HFModel)
    (acc : Accelerator) :
    get_callbacks_and_ready_for_train tfVersion model (some acc) =
      .ok ([], some { prepare := .patched (collatorFor tfVersion) acc.prepare
                      other_attrs := acc.other_attrs }) := rfl

/-- C7: at module load the plugin is registered under the single
configuration path `training.attention.padding_free`, and the constructor
accepts a configuration exactly when
`training.attention.padding_free.method` holds `huggingface`. -/
theorem C7_registration_path_and_method_check (cfg : Configurations) :
    registered_configuration_and_paths = ["training.attention.padding_free"] ∧
    ((∃ p, PaddingFreeAccelerationPlugin_init cfg = .ok p) ↔
      cfg.lookup "training.attention.padding_free.method" = some "huggingface") := by
  refine ⟨rfl, ?_⟩
  unfold PaddingFreeAccelerationPlugin_init check_config_and_maybe_check_values
  cases hl : cfg.lookup "training.attention.padding_free.method" with
  | none => simp
  | some v =>
    by_cases hv : v = "huggingface"
    · subst hv
      simp
    · simp [hv]

/-- C8: the patched `prepare` is a pure pass-through to the original
(pre-patch) `prepare` when called with more than one positional argument, or
with a single positional argument that is not a `DataLoader`: the result is
exactly the original method's on the same arguments and `device_placement`. -/
theorem C8_passthrough_to_original (tfVersion : String) (acc : Accelerator)
    (args : List PrepArg) (device_placement : Option Nat)
    (h : 1 < args.length ∨ ∃ a, args = [a] ∧ a.isDataLoader = false) :
    runPrepare (patch_dataloader tfVersion acc).prepare args device_placement =
      runPrepare acc.prepare args device_placement := by
  rcases h with h | ⟨a, rfl, ha⟩
  · rw [patch_dataloader]
    rw [runPrepare.eq_def]
    simp [h]
  · cases a with
    | dataloader dl => simp [PrepArg.isDataLoader] at ha
    | other v => rfl

/-- C8 witness: a single non-dataloader argument is passed through to the
original `prepare` untouched. -/
theorem C8_witness :
    runPrepare (patch_dataloader "4.43" ⟨.original 9, 0⟩).prepare [.other 3] (some 1) =
      runPrepare (.original 9) [.other 3] (some 1) :=
  C8_passthrough_to_original "4.43" ⟨.original 9, 0⟩ [.other 3] (some 1)
    (Or.inr ⟨.other 3, rfl, rfl⟩)

/-- C9 counterexample: with the default `accelerator=None`,
`get_callbacks_and_ready_for_train` does not return the empty callback list —
`accelerator.prepare` inside `_patch_dataloader` raises `AttributeError` —
so the claim that it always returns `[]` for every accelerator including
`None` is false. -/
theorem C9_counterexample_none_raises :
    get_callbacks_and_ready_for_train "4.43" none none = .error .attributeError := rfl

/-- C9 (amended): `requires_agumentation` is always `True`, and
`get_callbacks_and_ready_for_train` returns the empty callback list for
every model and every non-None accelerator; with `accelerator=None` it
raises `AttributeError` instead. -/
theorem C9_amended_empty_callbacks (tfVersion : String) (model : Option HFModel)
    (acc : Accelerator) :
    requires_agumentation = true ∧
    get_callbacks_and_ready_for_train tfVersion model (some acc) =
      .ok ([], some (patch_dataloader tfVersion acc)) ∧
    get_callbacks_and_ready_for_train tfVersion model none = .error .attributeError :=
  ⟨rfl, rfl, rfl⟩

/-- C10: the dataloader hijack is not version-gated: for every installed
transformers version `_patch_dataloader` replaces `accelerator.prepare`,
and the patched `prepare` applies the same `TypeError` check and the same
`collate_fn` replacement; the version only selects the collator class (the
local `ilab_utils` one strictly below `4.44`, the transformers-native one
otherwise). -/
theorem C10_hijack_not_version_gated (tfVersion : String) (acc : Accelerator)
    (dl : DataLoader) (device_placement : Option Nat) :
    (patch_dataloader tfVersion acc).prepare = .patched (collatorFor tfVersion) acc.prepare ∧
    collatorFor tfVersion =
      (if versionLt tfVersion TRANSFORMERS_VERSION then .ilab_utils else .transformers_native) ∧
    runPrepare (patch_dataloader tfVersion acc).prepare [.dataloader dl] device_placement =
      (if dl.collate_fn.isSeq2Seq then
        { result := .ok (.dataloader { dl with collate_fn := .flattening (collatorFor tfVersion) })
          argsAfter := [.dataloader { dl with collate_fn := .flattening (collatorFor tfVersion) }] }
      else { result := .error .typeError, argsAfter := [.dataloader dl] }) := by
  refine ⟨rfl, rfl, ?_⟩
  cases h : dl.collate_fn.isSeq2Seq <;> simp [patch_dataloader, runPrepare, h]
